import Mathlib

/-!
Shallow embedding of `src/decor/decorators.py` (the `decor` library):
five decorator factories — `class_property`, `lazy_property`, `memoized`,
`retryable`, `timed` — and proofs about them.

Modelling conventions:
* Python exceptions become values of `PyExc`; the class of an exception is an
  `ExcType`, with `ExcType.exception` playing the role of the base class
  `Exception` (every exception is an instance of it) and `ExcType.leaf n`
  playing the role of a direct subclass of `Exception` distinct for each `n`.
* The side-effecting hook callbacks of `retryable` (`on_retry_callback`,
  `on_success_callback`, `on_failure_callback`) and the blocking
  `time.sleep` call are recorded as events in a trace, in the order the
  Python code performs them, each event carrying exactly the arguments the
  Python code passes.  The value-returning callbacks
  (`should_retry_callback`, `sleep_time_callback`) are modelled as pure
  functions stored in the configuration; their invocations are additionally
  recorded as query events.  Hooks are modelled as non-raising, which is the
  regime all the specified properties live in.
* The wrapped operation `receiver(self, *args, **kwargs)` is modelled as a
  function `op : Nat → Except PyExc α` giving the outcome of its n-th
  invocation (n = the 1-based `attempt` counter); `self`, `args` and
  `kwargs` are fixed over the retry loop, so they are absorbed into `op`.
-/

/-- Model of a Python exception class: the base `Exception` class, or a
direct subclass of it distinguished by a natural number tag. -/
inductive ExcType where
  | exception
  | leaf (n : Nat)
deriving DecidableEq, Repr

/-- Model of Python `isinstance(e, t)` restricted to this class hierarchy:
everything is an instance of the base `Exception`; a `leaf` is an instance
only of itself (and of the base). -/
def is_instance_of : ExcType → ExcType → Bool
  | _, .exception => true
  | .exception, .leaf _ => false
  | .leaf n, .leaf m => n == m

/-- Model of a Python exception object: its class plus a payload standing
for its identity/diagnostic content (propagating the same `PyExc` value
models propagating the exception object unmodified). -/
structure PyExc where
  excType : ExcType
  payload : Nat
deriving DecidableEq, Repr

/-- Model of `except tuple(handled_exception_types) as e`: the exception is
caught iff its class is an instance of some member of the tuple. -/
def handled_by (types : List ExcType) (e : PyExc) : Bool :=
  types.any (fun t => is_instance_of e.excType t)

/-- Observable events of one `with_retry` call, in program order.  Hook
events record the arguments the Python code passes (minus the fixed
`self`); query events record calls to the value-returning callbacks. -/
inductive RetryEvent where
  | on_success (total_attempts : Nat)
  | should_retry_query (attempt : Nat) (e : PyExc)
  | on_retry (attempt : Nat) (e : PyExc)
  | sleep_time_query (retry_attempt : Nat) (e : PyExc)
  | sleep (duration : Nat)
  | on_failure (total_attempts : Nat) (e : Option PyExc)
deriving DecidableEq, Repr

/-- The environment `with_retry` closes over, as built by `retryable`:
the normalized tuple of handled exception types, the normalized
`max_retries`, and the two value-returning callbacks (either the defaults
`retryable` installs or caller-supplied ones).  Sleep durations are
modelled as naturals. -/
structure RetryConfig where
  handled_exception_types : List ExcType
  max_retries : Nat
  should_retry_callback : Nat → PyExc → Bool
  sleep_time_callback : Nat → PyExc → Nat

/-- Line `max_attempts = max_retries + 1` of `retryable`. -/
def RetryConfig.max_attempts (cfg : RetryConfig) : Nat :=
  cfg.max_retries + 1

/-- How one `with_retry` call ends: a normal return, a `raise` of an
exception, or the degenerate `raise None` (reachable in the source only if
the loop body never ran). -/
inductive RetryOutcome (α : Type) where
  | ok (a : α)
  | raised (e : PyExc)
  | raisedNone
deriving DecidableEq, Repr

/-- Result of one `with_retry` call: its outcome, the trace of hook/sleep
events, and the number of invocations of the wrapped operation. -/
structure RetryResult (α : Type) where
  outcome : RetryOutcome α
  events : List RetryEvent
  invocations : Nat
deriving DecidableEq, Repr

/-- The `while attempt < max_attempts` loop of `with_retry`.  `fuel` is the
number of loop iterations the guard still allows (`max_attempts - attempt`),
so the guard test `attempt < max_attempts` is `fuel > 0`; `attempt`,
`last` (`last_exception`), the accumulated event trace and the running
invocation count are the loop state. -/
def withRetryLoop (cfg : RetryConfig) (op : Nat → Except PyExc α) :
    Nat → Nat → Option PyExc → List RetryEvent → Nat → RetryResult α
  | 0, attempt, last, evts, inv =>
      -- loop guard failed: on_failure_callback(self, attempt, last_exception);
      -- raise last_exception
      { outcome := match last with
          | some e => .raised e
          | none => .raisedNone
        events := evts ++ [.on_failure attempt last]
        invocations := inv }
  | fuel + 1, attempt, _last, evts, inv =>
      let attempt' := attempt + 1       -- attempt += 1
      match op attempt' with            -- result = receiver(self, *args, **kwargs)
      | .ok a =>
          -- on_success_callback(self, attempt); return result
          { outcome := .ok a
            events := evts ++ [.on_success attempt']
            invocations := inv + 1 }
      | .error e =>
          if handled_by cfg.handled_exception_types e then
            -- except tuple(handled_exception_types) as e: last_exception = e
            if ¬ cfg.should_retry_callback attempt' e then
              -- break, then on_failure_callback(self, attempt, last_exception);
              -- raise last_exception
              { outcome := .raised e
                events := evts ++ [.should_retry_query attempt' e,
                  .on_failure attempt' (some e)]
                invocations := inv + 1 }
            else
              -- on_retry_callback(self, attempt, e);
              -- sleep_time = sleep_time_callback(self, attempt - 1, e);
              -- time.sleep(sleep_time)
              let d := cfg.sleep_time_callback (attempt' - 1) e
              withRetryLoop cfg op fuel attempt' (some e)
                (evts ++ [.should_retry_query attempt' e, .on_retry attempt' e,
                  .sleep_time_query (attempt' - 1) e, .sleep d])
                (inv + 1)
          else
            -- exception class not in the except tuple: it propagates out of
            -- with_retry immediately, no hook runs
            { outcome := .raised e
              events := evts
              invocations := inv + 1 }

/-- The wrapper `with_retry` returned by `retryable`'s inner `decorator`:
`attempt = 0`, `last_exception = None`, then the retry loop. -/
def with_retry (cfg : RetryConfig) (op : Nat → Except PyExc α) : RetryResult α :=
  withRetryLoop cfg op cfg.max_attempts 0 none [] 0

/-- The `retryable` factory: normalizes each argument exactly as the Python
does (`if not handled_exception_types` treats both `None` and an empty
collection as absent, likewise `if not sleep_times`; `max_retries` is
defaulted only when it `is None`; callback arguments default only when
`None`, a function object being always truthy) and installs the default
value-returning callbacks
`should_retry_callback = attempt < max_attempts` and
`sleep_time_callback = sleep_times[retry_attempt]`.  The default list
lookup is modelled with `getD`; the Python lookup raises `IndexError` out
of range, and every use in this development stays in range. -/
def retryable (handled_exception_types : Option (List ExcType))
    (max_retries : Option Nat)
    (sleep_times : Option (List Nat))
    (should_retry_callback : Option (Nat → PyExc → Bool))
    (sleep_time_callback : Option (Nat → PyExc → Nat)) : RetryConfig :=
  let het := match handled_exception_types with
    | none => [ExcType.exception]
    | some [] => [ExcType.exception]
    | some (t :: ts) => t :: ts
  let mr := match max_retries with
    | none => 3
    | some m => m
  let max_attempts := mr + 1
  let st := match sleep_times with
    | none => [0, 1, 2]
    | some [] => [0, 1, 2]
    | some (d :: ds) => d :: ds
  let src := match should_retry_callback with
    | none => fun attempt _ => decide (attempt < max_attempts)
    | some f => f
  let stc := match sleep_time_callback with
    | none => fun retry_attempt _ => st.getD retry_attempt 0
    | some f => f
  ⟨het, mr, src, stc⟩

/-- Arguments of the `on_retry_callback` calls in a trace, in order. -/
def on_retry_events : List RetryEvent → List (Nat × PyExc)
  | [] => []
  | .on_retry a e :: rest => (a, e) :: on_retry_events rest
  | _ :: rest => on_retry_events rest

/-- Arguments of the `on_success_callback` calls in a trace, in order. -/
def on_success_events : List RetryEvent → List Nat
  | [] => []
  | .on_success n :: rest => n :: on_success_events rest
  | _ :: rest => on_success_events rest

/-- Arguments of the `on_failure_callback` calls in a trace, in order. -/
def on_failure_events : List RetryEvent → List (Nat × Option PyExc)
  | [] => []
  | .on_failure n e :: rest => (n, e) :: on_failure_events rest
  | _ :: rest => on_failure_events rest

/-- Durations of the `time.sleep` calls in a trace, in order. -/
def sleep_events : List RetryEvent → List Nat
  | [] => []
  | .sleep d :: rest => d :: sleep_events rest
  | _ :: rest => sleep_events rest

/-- Arguments of the `sleep_time_callback` calls in a trace, in order. -/
def sleep_time_query_events : List RetryEvent → List (Nat × PyExc)
  | [] => []
  | .sleep_time_query i e :: rest => (i, e) :: sleep_time_query_events rest
  | _ :: rest => sleep_time_query_events rest

/-!
Model of `class_property` and the slice of Python's attribute protocol that
its claims live in.  A decorated class's `__dict__` maps attribute names to
entries that are either the `WrappedProperty` data descriptor installed by
`class_property` or a plain value; an instance's `__dict__` maps names to
plain values.  Per Python's descriptor protocol, setting or deleting an
attribute *on an instance* consults the class `__dict__` first and, on a
data descriptor, calls its `__set__`/`__delete__`; setting or deleting the
attribute *on the class itself* goes through the metaclass (plain `type`),
which never sees the descriptor stored in the class's own `__dict__` and
simply rebinds or removes that `__dict__` entry.  The descriptor's
`__get__` is irrelevant to the mutation claims and is left out of the
model. -/

/-- The message of `WrappedProperty.__set__`:
`'Cannot set "%s"' % self.method_name`. -/
def cannot_set_msg (method_name : String) : String :=
  "Cannot set \"" ++ method_name ++ "\""

/-- The message of `WrappedProperty.__delete__`:
`'Cannot delete "%s"' % self.method_name`. -/
def cannot_delete_msg (method_name : String) : String :=
  "Cannot delete \"" ++ method_name ++ "\""

/-- The descriptor object `class_property` installs; `method_name` is
`receiver.__name__`, captured in `WrappedProperty.__init__`. -/
structure WrappedProperty where
  method_name : String
deriving DecidableEq, Repr

/-- An entry of a class `__dict__`: the `WrappedProperty` descriptor, or a
plain value. -/
inductive ClassAttr (α : Type) where
  | descriptor (p : WrappedProperty)
  | plain (v : α)
deriving DecidableEq, Repr

/-- A Python class, reduced to its own `__dict__`. -/
structure PyClass (α : Type) where
  attrs : List (String × ClassAttr α)
deriving DecidableEq, Repr

/-- Lookup in a Python dict modelled as an association list. -/
def dict_get : List (String × β) → String → Option β
  | [], _ => none
  | (k', v) :: rest, k => if k' == k then some v else dict_get rest k

/-- Key assignment in a Python dict modelled as an association list. -/
def dict_set : List (String × β) → String → β → List (String × β)
  | [], k, v => [(k, v)]
  | (k', v') :: rest, k, v =>
      if k' == k then (k, v) :: rest else (k', v') :: dict_set rest k v

/-- Key removal in a Python dict modelled as an association list. -/
def dict_del : List (String × β) → String → List (String × β)
  | [], _ => []
  | (k', v') :: rest, k =>
      if k' == k then rest else (k', v') :: dict_del rest k

/-- The `class_property` factory: `return WrappedProperty()` with
`self.method_name = receiver.__name__`. -/
def class_property (receiver_name : String) : WrappedProperty :=
  ⟨receiver_name⟩

/-- `setattr(obj, name, v)` for `obj` an instance of `cls`: a data
descriptor in the class `__dict__` intercepts (here `WrappedProperty.__set__`
raises `AttributeError`); otherwise the instance `__dict__` is written. -/
def setattr_on_instance (cls : PyClass α) (inst : List (String × α))
    (name : String) (v : α) : Except String (List (String × α)) :=
  match dict_get cls.attrs name with
  | some (.descriptor p) => .error (cannot_set_msg p.method_name)
  | _ => .ok (dict_set inst name v)

/-- `delattr(obj, name)` for `obj` an instance of `cls`: a data descriptor
in the class `__dict__` intercepts (here `WrappedProperty.__delete__` raises
`AttributeError`); otherwise the instance `__dict__` entry is removed, or
`AttributeError` raised when absent. -/
def delattr_on_instance (cls : PyClass α) (inst : List (String × α))
    (name : String) : Except String (List (String × α)) :=
  match dict_get cls.attrs name with
  | some (.descriptor p) => .error (cannot_delete_msg p.method_name)
  | _ =>
      if (dict_get inst name).isSome then .ok (dict_del inst name)
      else .error name

/-- `setattr(cls, name, v)` on the class itself: handled by the metaclass
`type`, which rebinds the class `__dict__` entry without consulting any
descriptor stored there. -/
def setattr_on_class (cls : PyClass α) (name : String) (v : α) :
    Except String (PyClass α) :=
  .ok ⟨dict_set cls.attrs name (.plain v)⟩

/-- `delattr(cls, name)` on the class itself: handled by the metaclass
`type`, which removes the class `__dict__` entry when present (no
descriptor is consulted), and raises `AttributeError` when absent. -/
def delattr_on_class (cls : PyClass α) (name : String) :
    Except String (PyClass α) :=
  if (dict_get cls.attrs name).isSome then .ok ⟨dict_del cls.attrs name⟩
  else .error name

/-!
Model of `lazy_property`.  The per-instance slot attribute
`'_%s' % receiver.__name__` is an `Option`; the wrapped zero-argument
method is modelled as `receiver : Nat → α` giving the value its n-th
invocation would compute (0-based), so that "re-running the computation
would yield a different result" is expressible. -/

/-- Per-instance state of one lazy property: the slot attribute (absent
until first access) and the number of invocations of the wrapped
function. -/
structure LazyState (α : Type) where
  slot : Option α
  calls : Nat
deriving DecidableEq, Repr

/-- The property getter `with_memoization` built by `lazy_property`:
`if not hasattr(self, key): setattr(self, key, receiver(self))` followed by
`return getattr(self, key)`. -/
def lazy_with_memoization (receiver : Nat → α) (st : LazyState α) :
    α × LazyState α :=
  match st.slot with
  | none =>
      let v := receiver st.calls
      (v, ⟨some v, st.calls + 1⟩)
  | some v => (v, st)

/-!
Model of `memoized`.  A positional argument is modelled by the string the
key generation extracts from it: `str(arg)` when the argument has no
`__dict__`, `str(arg.__dict__)` when it does. -/

/-- A positional argument as seen by `generate_arg_key`: a value without
`__dict__` carrying its `str` form, or an object carrying the `str` form
of its `__dict__`. -/
inductive PyArg where
  | plain (s : String)
  | obj (dict_str : String)
deriving DecidableEq, Repr

/-- `generate_arg_key`:
`str(arg if not hasattr(arg, '__dict__') else arg.__dict__)`. -/
def generate_arg_key : PyArg → String
  | .plain s => s
  | .obj d => d

/-- `generate_args_key`: `''.join(generate_arg_key(arg) for arg in args)`. -/
def generate_args_key (args : List PyArg) : String :=
  String.join (args.map generate_arg_key)

/-- `generate_receiver_key`: `receiver.__name__`. -/
def generate_receiver_key (receiver_name : String) : String :=
  receiver_name

/-- `generate_key`: the receiver key concatenated with the args key. -/
def generate_key (receiver_name : String) (args : List PyArg) : String :=
  generate_receiver_key receiver_name ++ generate_args_key args

/-- Per-instance state of `memoized`: the `self._cache` dict (an empty
dict models both a missing and a fresh cache, since `with_memoization`
creates an empty one on first call) and the list of receiver invocations,
each recorded by its argument list. -/
structure MemoState (ρ : Type) where
  cache : List (String × ρ)
  calls : List (List PyArg)
deriving DecidableEq, Repr

/-- The wrapper `with_memoization` built by `memoized`: compute the key;
on a cache hit return the cached value, otherwise invoke the receiver,
store the result under the key and return it. -/
def memo_with_memoization (receiver_name : String) (receiver : List PyArg → ρ)
    (st : MemoState ρ) (args : List PyArg) : ρ × MemoState ρ :=
  let key := generate_key receiver_name args
  match dict_get st.cache key with
  | some v => (v, st)
  | none =>
      let v := receiver args
      (v, ⟨dict_set st.cache key v, st.calls ++ [args]⟩)

/-!
Model of `timed`.  Wall-clock readings of `time.time()` are supplied as
rational parameters (`start_time` just before the call, `end_time` just
after a successful return); the wrapped call is a completed outcome; calls
to `stats_client.record_timing` are returned as a list of samples. -/

/-- One `record_timing(stat_name, total_time, sample_rate)` call. -/
structure TimingSample where
  stat_name : String
  total_time : Rat
  sample_rate : Rat
deriving DecidableEq, Repr

/-- The `prefix` normalization of `timed`:
`str(prefix) + '.' if prefix is not None else ''`. -/
def timed_prefix : Option String → String
  | some p => p ++ "."
  | none => ""

/-- The `sample_rate` normalization of `timed`:
`sample_rate if sample_rate is not None else 1.0`. -/
def timed_sample_rate : Option Rat → Rat
  | some r => r
  | none => 1

/-- The wrapper `with_timing` built by `timed`: `stat_name` is the prefix
joined with `receiver.__name__`; on an exception from the receiver it
propagates before `record_timing` runs (no sample); on a normal return
`total_time = (time.time() - start_time) * 1000.0` is recorded as exactly
one sample and the result returned unchanged. -/
def with_timing (pre : String) (sample_rate : Rat) (receiver_name : String)
    (start_time end_time : Rat) (call : Except PyExc α) :
    Except PyExc α × List TimingSample :=
  let stat_name := pre ++ receiver_name
  match call with
  | .error e => (.error e, [])
  | .ok result =>
      let total_time := (end_time - start_time) * 1000
      (.ok result, [⟨stat_name, total_time, sample_rate⟩])

/-- Every exception class is an instance of the base `Exception` class. -/
theorem is_instance_of_exception (t : ExcType) : is_instance_of t .exception = true := by
  cases t <;> rfl

/-- The tuple `(Exception,)` catches every exception. -/
theorem handled_by_base (e : PyExc) : handled_by [ExcType.exception] e = true := by
  simp [handled_by, is_instance_of_exception]

/-- The retry loop performs at most `fuel` further invocations of the
wrapped operation, whatever the configuration does. -/
theorem withRetryLoop_invocations_le (cfg : RetryConfig) (op : Nat → Except PyExc α) :
    ∀ (fuel attempt : Nat) (last : Option PyExc) (evts : List RetryEvent) (inv : Nat),
      (withRetryLoop cfg op fuel attempt last evts inv).invocations ≤ inv + fuel := by
  intro fuel
  induction fuel with
  | zero => intro attempt last evts inv; simp [withRetryLoop]
  | succ n ih =>
      intro attempt last evts inv
      simp only [withRetryLoop]
      cases h : op (attempt + 1) with
      | ok a => simp
      | error e =>
          by_cases hh : handled_by cfg.handled_exception_types e
          · by_cases hs : cfg.should_retry_callback (attempt + 1) e
            · simp only [hh, hs, if_true, if_false, not_true, ite_true, ite_false]
              calc (withRetryLoop cfg op n (attempt + 1) (some e) _ (inv + 1)).invocations
                  ≤ (inv + 1) + n := ih _ _ _ _
                _ = inv + (n + 1) := by omega
            · simp [hh, hs]
          · simp [hh]

/-- C1: for every retryable configuration `max_attempts` equals
`max_retries + 1`, and for every wrapped operation the retry executor
invokes the wrapped operation at most `max_attempts` times, whichever
`should_retry_callback` and `sleep_time_callback` the configuration
carries. -/
theorem retryable_max_attempts_invocation_bound (α : Type) (cfg : RetryConfig)
    (op : Nat → Except PyExc α) :
    cfg.max_attempts = cfg.max_retries + 1 ∧
      (with_retry cfg op).invocations ≤ cfg.max_attempts := by
  refine ⟨rfl, ?_⟩
  have h := withRetryLoop_invocations_le cfg op cfg.max_attempts 0 none [] 0
  simpa [with_retry] using h

/-- C2: with the default configuration, an operation that raises a handled
failure on every invocation is invoked exactly 4 times, the retry hook
fires exactly 3 times, the failure hook fires exactly once with
`total_attempts = 4`, and the exception of the 4th invocation propagates
unmodified. -/
theorem retryable_default_always_failing (α : Type) (op : Nat → Except PyExc α)
    (f : Nat → PyExc) (hf : ∀ n, op n = .error (f n)) :
    (with_retry (retryable none none none none none) op).invocations = 4 ∧
    (on_retry_events (with_retry (retryable none none none none none) op).events).length
      = 3 ∧
    on_failure_events (with_retry (retryable none none none none none) op).events
      = [(4, some (f 4))] ∧
    (with_retry (retryable none none none none none) op).outcome = .raised (f 4) := by
  simp [with_retry, retryable, RetryConfig.max_attempts, withRetryLoop,
    hf 1, hf 2, hf 3, hf 4, handled_by_base, on_retry_events, on_failure_events]

/-- Witness for C2: a concrete always-failing operation under the default
configuration. -/
theorem retryable_default_always_failing_witness :
    (with_retry (retryable none none none none none)
        ((fun n => Except.error ⟨ExcType.exception, n⟩) : Nat → Except PyExc Nat)).invocations
      = 4 ∧
    (on_retry_events (with_retry (retryable none none none none none)
        ((fun n => Except.error ⟨ExcType.exception, n⟩) : Nat → Except PyExc Nat)).events).length
      = 3 ∧
    on_failure_events (with_retry (retryable none none none none none)
        ((fun n => Except.error ⟨ExcType.exception, n⟩) : Nat → Except PyExc Nat)).events
      = [(4, some ⟨ExcType.exception, 4⟩)] ∧
    (with_retry (retryable none none none none none)
        ((fun n => Except.error ⟨ExcType.exception, n⟩) : Nat → Except PyExc Nat)).outcome
      = .raised ⟨ExcType.exception, 4⟩ :=
  retryable_default_always_failing Nat (fun n => Except.error ⟨ExcType.exception, n⟩)
    (fun n => ⟨ExcType.exception, n⟩) (fun _ => rfl)

/-- C3: with the default configuration, an operation whose 1st invocation
raises a handled failure and whose 2nd succeeds is invoked exactly twice,
the retry hook fires once with `attempt = 1`, the success hook fires once
with `total_attempts = 2`, exactly one sleep occurs with duration
`sleep_times[0]`, the sleep-time callback is consulted exactly once with
the zero-based index `attempt - 1 = 0`, and the success value is
returned. -/
theorem retryable_default_success_on_second_attempt (α : Type)
    (op : Nat → Except PyExc α) (e1 : PyExc) (a : α)
    (h1 : op 1 = .error e1) (h2 : op 2 = .ok a) :
    (with_retry (retryable none none none none none) op).invocations = 2 ∧
    on_retry_events (with_retry (retryable none none none none none) op).events
      = [(1, e1)] ∧
    on_success_events (with_retry (retryable none none none none none) op).events
      = [2] ∧
    sleep_events (with_retry (retryable none none none none none) op).events
      = [[0, 1, 2].getD 0 0] ∧
    sleep_time_query_events (with_retry (retryable none none none none none) op).events
      = [(0, e1)] ∧
    (with_retry (retryable none none none none none) op).outcome = .ok a := by
  simp [with_retry, retryable, RetryConfig.max_attempts, withRetryLoop, h1, h2,
    handled_by_base, on_retry_events, on_success_events, sleep_events,
    sleep_time_query_events]

/-- Witness for C3: a concrete operation failing once then succeeding,
under the default configuration. -/
theorem retryable_default_success_on_second_attempt_witness :
    (with_retry (retryable none none none none none)
        ((fun n => if n == 1 then Except.error ⟨ExcType.exception, 7⟩ else Except.ok 42) :
          Nat → Except PyExc Nat)).invocations = 2 ∧
    on_retry_events (with_retry (retryable none none none none none)
        ((fun n => if n == 1 then Except.error ⟨ExcType.exception, 7⟩ else Except.ok 42) :
          Nat → Except PyExc Nat)).events = [(1, ⟨ExcType.exception, 7⟩)] ∧
    on_success_events (with_retry (retryable none none none none none)
        ((fun n => if n == 1 then Except.error ⟨ExcType.exception, 7⟩ else Except.ok 42) :
          Nat → Except PyExc Nat)).events = [2] ∧
    sleep_events (with_retry (retryable none none none none none)
        ((fun n => if n == 1 then Except.error ⟨ExcType.exception, 7⟩ else Except.ok 42) :
          Nat → Except PyExc Nat)).events = [[0, 1, 2].getD 0 0] ∧
    sleep_time_query_events (with_retry (retryable none none none none none)
        ((fun n => if n == 1 then Except.error ⟨ExcType.exception, 7⟩ else Except.ok 42) :
          Nat → Except PyExc Nat)).events = [(0, ⟨ExcType.exception, 7⟩)] ∧
    (with_retry (retryable none none none none none)
        ((fun n => if n == 1 then Except.error ⟨ExcType.exception, 7⟩ else Except.ok 42) :
          Nat → Except PyExc Nat)).outcome = .ok 42 :=
  retryable_default_success_on_second_attempt Nat _ ⟨ExcType.exception, 7⟩ 42 rfl rfl

/-- C4: with `max_retries = 0` supplied explicitly, an operation whose
invocation raises a handled failure is invoked exactly once, the retry hook
never fires, the failure hook fires exactly once with
`total_attempts = 1`, and the failure propagates. -/
theorem retryable_zero_max_retries (α : Type) (op : Nat → Except PyExc α) (e1 : PyExc)
    (h1 : op 1 = .error e1) :
    (with_retry (retryable none (some 0) none none none) op).invocations = 1 ∧
    on_retry_events (with_retry (retryable none (some 0) none none none) op).events
      = [] ∧
    on_failure_events (with_retry (retryable none (some 0) none none none) op).events
      = [(1, some e1)] ∧
    (with_retry (retryable none (some 0) none none none) op).outcome = .raised e1 := by
  simp [with_retry, retryable, RetryConfig.max_attempts, withRetryLoop, h1,
    handled_by_base, on_retry_events, on_failure_events]

/-- Witness for C4: a concrete always-failing operation with
`max_retries = 0`. -/
theorem retryable_zero_max_retries_witness :
    (with_retry (retryable none (some 0) none none none)
        ((fun _ => Except.error ⟨ExcType.exception, 5⟩) : Nat → Except PyExc Nat)).invocations
      = 1 ∧
    on_retry_events (with_retry (retryable none (some 0) none none none)
        ((fun _ => Except.error ⟨ExcType.exception, 5⟩) : Nat → Except PyExc Nat)).events
      = [] ∧
    on_failure_events (with_retry (retryable none (some 0) none none none)
        ((fun _ => Except.error ⟨ExcType.exception, 5⟩) : Nat → Except PyExc Nat)).events
      = [(1, some ⟨ExcType.exception, 5⟩)] ∧
    (with_retry (retryable none (some 0) none none none)
        ((fun _ => Except.error ⟨ExcType.exception, 5⟩) : Nat → Except PyExc Nat)).outcome
      = .raised ⟨ExcType.exception, 5⟩ :=
  retryable_zero_max_retries Nat _ ⟨ExcType.exception, 5⟩ rfl

/-- C5: a failure whose class is outside the handled tuple propagates
immediately and unmodified, from any point of the retry loop: no hook or
callback runs for it (the event trace is left exactly as it was), no sleep
occurs, and the loop ends right after that one invocation; in particular
an unhandled failure on the very first invocation yields the raised
exception, an empty trace and exactly one invocation. -/
theorem retryable_unhandled_propagates_immediately (α : Type) (cfg : RetryConfig)
    (op : Nat → Except PyExc α) (e : PyExc)
    (hu : handled_by cfg.handled_exception_types e = false) :
    (∀ fuel attempt last evts inv, op (attempt + 1) = .error e →
        withRetryLoop cfg op (fuel + 1) attempt last evts inv
          = ⟨.raised e, evts, inv + 1⟩) ∧
    (op 1 = .error e → with_retry cfg op = ⟨.raised e, [], 1⟩) := by
  constructor
  · intro fuel attempt last evts inv h
    simp [withRetryLoop, h, hu]
  · intro h1
    have hstep : withRetryLoop cfg op (cfg.max_retries + 1) 0 none [] 0
        = ⟨.raised e, [], 1⟩ := by
      simp [withRetryLoop, h1, hu]
    simpa [with_retry, RetryConfig.max_attempts] using hstep

/-- Witness for C5: a configuration handling only the class `leaf 0`, and
an operation raising an exception of class `leaf 1`. -/
theorem retryable_unhandled_propagates_immediately_witness :
    handled_by (retryable (some [ExcType.leaf 0]) none none none
        none).handled_exception_types ⟨ExcType.leaf 1, 3⟩ = false ∧
    with_retry (retryable (some [ExcType.leaf 0]) none none none none)
        ((fun _ => Except.error ⟨ExcType.leaf 1, 3⟩) : Nat → Except PyExc Nat)
      = ⟨.raised ⟨ExcType.leaf 1, 3⟩, [], 1⟩ :=
  ⟨by decide, (retryable_unhandled_propagates_immediately Nat _ _ ⟨ExcType.leaf 1, 3⟩
    (by decide)).2 rfl⟩

/-- C6 counterexample: on a class carrying a `class_property` descriptor
under "foo", assigning to and deleting the attribute on the type itself
both succeed (the class `__dict__` entry is rebound or removed), instead of
failing with an error naming the property. -/
theorem class_property_type_level_mutation_succeeds :
    setattr_on_class
        (⟨[("foo", ClassAttr.descriptor (class_property "foo"))]⟩ : PyClass Nat) "foo" 42
      = .ok ⟨[("foo", ClassAttr.plain 42)]⟩ ∧
    delattr_on_class
        (⟨[("foo", ClassAttr.descriptor (class_property "foo"))]⟩ : PyClass Nat) "foo"
      = .ok ⟨[]⟩ := by
  constructor <;> rfl

/-- C6 (amended): for every attribute bound to a `WrappedProperty`
descriptor in a class's `__dict__`, assigning to it or deleting it via an
instance fails with an `AttributeError` naming the property; via the type
itself, assignment rebinds and deletion removes the class `__dict__` entry
without error. -/
theorem class_property_mutation_semantics (α : Type) (cls : PyClass α)
    (inst : List (String × α)) (name : String) (p : WrappedProperty) (v : α)
    (h : dict_get cls.attrs name = some (ClassAttr.descriptor p)) :
    setattr_on_instance cls inst name v = .error (cannot_set_msg p.method_name) ∧
    delattr_on_instance cls inst name = .error (cannot_delete_msg p.method_name) ∧
    setattr_on_class cls name v = .ok ⟨dict_set cls.attrs name (ClassAttr.plain v)⟩ ∧
    delattr_on_class cls name = .ok ⟨dict_del cls.attrs name⟩ := by
  refine ⟨?_, ?_, rfl, ?_⟩
  · simp [setattr_on_instance, h]
  · simp [delattr_on_instance, h]
  · simp [delattr_on_class, h]

/-- Witness for the amended C6: a concrete class with a `class_property`
descriptor under "foo" and an instance with an empty `__dict__`. -/
theorem class_property_mutation_semantics_witness :
    dict_get (⟨[("foo", ClassAttr.descriptor (class_property "foo"))]⟩ : PyClass Nat).attrs
        "foo" = some (ClassAttr.descriptor ⟨"foo"⟩) ∧
    (setattr_on_instance
        (⟨[("foo", ClassAttr.descriptor (class_property "foo"))]⟩ : PyClass Nat)
        [] "foo" 42 = .error (cannot_set_msg "foo") ∧
     delattr_on_instance
        (⟨[("foo", ClassAttr.descriptor (class_property "foo"))]⟩ : PyClass Nat)
        [] "foo" = .error (cannot_delete_msg "foo") ∧
     setattr_on_class
        (⟨[("foo", ClassAttr.descriptor (class_property "foo"))]⟩ : PyClass Nat)
        "foo" 42 = .ok ⟨[("foo", ClassAttr.plain 42)]⟩ ∧
     delattr_on_class
        (⟨[("foo", ClassAttr.descriptor (class_property "foo"))]⟩ : PyClass Nat)
        "foo" = .ok ⟨[]⟩) :=
  ⟨rfl, class_property_mutation_semantics Nat
    ⟨[("foo", ClassAttr.descriptor (class_property "foo"))]⟩ [] "foo" ⟨"foo"⟩ 42 rfl⟩

/-- C7: a timed call whose wrapped operation raises records no timing
sample and propagates the failure unmodified; a successful timed call
records exactly one sample, tagged with the prefixed stat name and the
configured sample rate, and returns the result unchanged. -/
theorem with_timing_failure_no_sample_success_one_sample (α : Type)
    (pre receiver_name : String) (sample_rate t0 t1 : Rat) (e : PyExc) (a : α) :
    with_timing pre sample_rate receiver_name t0 t1 (.error e : Except PyExc α)
      = (.error e, []) ∧
    with_timing pre sample_rate receiver_name t0 t1 (.ok a)
      = (.ok a, [⟨pre ++ receiver_name, (t1 - t0) * 1000, sample_rate⟩]) :=
  ⟨rfl, rfl⟩

/-- C8: a lazy property accessed twice on a fresh instance invokes the
underlying computation exactly once; the second access returns the value
stored by the first access and leaves the slot and call count unchanged,
even when a re-run of the computation (`receiver 1`) would differ from the
first run (`receiver 0`). -/
theorem lazy_property_single_computation (α : Type) (receiver : Nat → α) :
    (lazy_with_memoization receiver ⟨none, 0⟩).1 = receiver 0 ∧
    (lazy_with_memoization receiver (lazy_with_memoization receiver ⟨none, 0⟩).2).1
      = receiver 0 ∧
    (lazy_with_memoization receiver (lazy_with_memoization receiver ⟨none, 0⟩).2).2
      = ⟨some (receiver 0), 1⟩ := by
  refine ⟨rfl, ?_, ?_⟩ <;> simp [lazy_with_memoization]

/-- C9: a first memoized call from a fresh cache computes and stores under
`generate_key`; a second call whose arguments generate the same key string
returns the first call's cached result with no new computation and no new
cache entry, while a second call generating a distinct key computes once
more, yielding two independent cache entries. -/
theorem memoized_cache_key_semantics (ρ : Type) (receiver_name : String)
    (receiver : List PyArg → ρ) (args1 args2 : List PyArg) :
    (memo_with_memoization receiver_name receiver ⟨[], []⟩ args1
      = (receiver args1,
         ⟨[(generate_key receiver_name args1, receiver args1)], [args1]⟩)) ∧
    (generate_key receiver_name args1 = generate_key receiver_name args2 →
      memo_with_memoization receiver_name receiver
          (memo_with_memoization receiver_name receiver ⟨[], []⟩ args1).2 args2
        = (receiver args1,
           ⟨[(generate_key receiver_name args1, receiver args1)], [args1]⟩)) ∧
    (generate_key receiver_name args1 ≠ generate_key receiver_name args2 →
      memo_with_memoization receiver_name receiver
          (memo_with_memoization receiver_name receiver ⟨[], []⟩ args1).2 args2
        = (receiver args2,
           ⟨[(generate_key receiver_name args1, receiver args1),
             (generate_key receiver_name args2, receiver args2)],
            [args1, args2]⟩)) := by
  refine ⟨rfl, ?_, ?_⟩
  · intro h
    simp [memo_with_memoization, dict_get, dict_set, h]
  · intro h
    simp [memo_with_memoization, dict_get, dict_set, h]

/-- Witness for C9: the colliding arguments `plain "1"` and `obj "1"`
(identical key strings) share one entry; `plain "1"` and `plain "2"`
(distinct key strings) yield two entries. -/
theorem memoized_cache_key_semantics_witness :
    (generate_key "f" [PyArg.plain "1"] = generate_key "f" [PyArg.obj "1"] ∧
      memo_with_memoization "f" (fun args => args.length)
          (memo_with_memoization "f" (fun args => (args.length : Nat)) ⟨[], []⟩
            [PyArg.plain "1"]).2 [PyArg.obj "1"]
        = (1, ⟨[(generate_key "f" [PyArg.plain "1"], 1)], [[PyArg.plain "1"]]⟩)) ∧
    (generate_key "f" [PyArg.plain "1"] ≠ generate_key "f" [PyArg.plain "2"] ∧
      memo_with_memoization "f" (fun args => args.length)
          (memo_with_memoization "f" (fun args => (args.length : Nat)) ⟨[], []⟩
            [PyArg.plain "1"]).2 [PyArg.plain "2"]
        = (1, ⟨[(generate_key "f" [PyArg.plain "1"], 1),
                (generate_key "f" [PyArg.plain "2"], 1)],
               [[PyArg.plain "1"], [PyArg.plain "2"]]⟩)) :=
  ⟨⟨by decide, (memoized_cache_key_semantics Nat "f" (fun args => args.length)
      [PyArg.plain "1"] [PyArg.obj "1"]).2.1 (by decide)⟩,
   ⟨by decide, (memoized_cache_key_semantics Nat "f" (fun args => args.length)
      [PyArg.plain "1"] [PyArg.plain "2"]).2.2 (by decide)⟩⟩

/-- C10: supplying `handled_exception_types` as an empty collection yields
the very same configuration as not supplying it (both normalize to the
tuple `(Exception,)`), whose handled set treats every failure as
handled. -/
theorem retryable_empty_handled_types_like_default (max_retries : Option Nat)
    (sleep_times : Option (List Nat)) (src : Option (Nat → PyExc → Bool))
    (stc : Option (Nat → PyExc → Nat)) :
    retryable (some []) max_retries sleep_times src stc
      = retryable none max_retries sleep_times src stc ∧
    ∀ e : PyExc,
      handled_by
          (retryable (some []) max_retries sleep_times src stc).handled_exception_types e
        = true := by
  refine ⟨rfl, ?_⟩
  intro e
  simp [retryable, handled_by_base]
